import Mathlib

/-!
# Verification of the TaskManager core logic (`app.py`)

This file gives a shallow embedding of the core of the task-manager
application and settles a list of specification claims against it.

Embedding conventions:
* Python strings are handled as `List Char`; `String` values are converted
  with `String.data` at the boundary.
* Python dicts (both the analysis record and the MongoDB task documents)
  are association lists `List (String × PyVal)` in insertion order, with
  assignment `d[k] = v` modelled by `dictSet` (update in place, append when
  the key is new) — exactly Python's insertion-order semantics.
* Python numbers (`int`/`float`) are modelled as `ℚ`.  The IEEE-754 special
  literal forms accepted by `float(...)` (`inf`/`nan`) and digit-group
  underscores are not modelled; no claim depends on them.
* `datetime.now()` / `datetime.now(pytz.UTC)` are external inputs and are
  passed as explicit parameters (`Date` for calendar dates, `Nat` ticks for
  UTC timestamps).
* The external OpenAI call in `analyze_task` is modelled as a parameter of
  type `Option String`: `some text` is a successful call whose message
  content is `text`, `none` is a call that raised (the `except` branch).
* `collection.update_one(filter, mods)` is modelled by applying the update
  modifiers (`$set`/`$push`/`$inc`) to the matched task document.
-/

namespace TaskManager

/-! ## Python string primitives -/

/-- The whitespace characters removed by Python `str.strip()`. -/
def isPySpace (c : Char) : Bool :=
  c == ' ' || c == '\t' || c == '\n' || c == '\r' || c == '\x0b' || c == '\x0c'

/-- Python `str.strip()` on a character list. -/
def pyStrip (s : List Char) : List Char :=
  ((s.dropWhile isPySpace).reverse.dropWhile isPySpace).reverse

/-- Python `str.split(sep)` for a one-character separator: splits at every
occurrence, keeping empty segments (`"".split(",") = [""]`). -/
def splitOnChar (sep : Char) : List Char → List (List Char)
  | [] => [[]]
  | c :: rest =>
    match splitOnChar sep rest with
    | [] => [[]]
    | cur :: tail => if c == sep then [] :: cur :: tail else (c :: cur) :: tail

/-- Whether `pre` is a prefix of `s` (auxiliary for substring search). -/
def startsWith : List Char → List Char → Bool
  | [], _ => true
  | _ :: _, [] => false
  | a :: as, b :: bs => a == b && startsWith as bs

/-- Python `needle in hay` substring containment. -/
def containsSub (needle : List Char) : List Char → Bool
  | [] => needle.isEmpty
  | c :: rest => startsWith needle (c :: rest) || containsSub needle rest

/-- Python `line.split(":")[-1]`: the text after the last colon (the whole
line when there is no colon). -/
def lastColonTok (line : List Char) : List Char :=
  (splitOnChar ':' line).getLastD []

/-! ## Dates (`datetime.strptime(s, "%Y-%m-%d")` and `timedelta(days=1)`) -/

/-- Numeric value of a list of decimal digits. -/
def digitsToNat (l : List Char) : Nat :=
  l.foldl (fun n c => n * 10 + (c.toNat - '0'.toNat)) 0

/-- Gregorian leap year, as implemented by `datetime`. -/
def isLeapYear (y : Nat) : Bool :=
  y % 4 == 0 && (y % 100 != 0 || y % 400 == 0)

/-- Number of days of month `m` of year `y`. -/
def daysInMonth (y m : Nat) : Nat :=
  if m == 2 then (if isLeapYear y then 29 else 28)
  else if m == 4 || m == 6 || m == 9 || m == 11 then 30
  else 31

/-- Whether `datetime.strptime(s, "%Y-%m-%d")` succeeds: exactly
4-digit year, 1–2 digit month, 1–2 digit day separated by hyphens, the
whole string consumed, and the calendar ranges of `datetime` respected
(`MINYEAR = 1`, month 1–12, day within the month). -/
def validDateString (s : List Char) : Bool :=
  match splitOnChar '-' s with
  | [y, m, d] =>
    y.length == 4 && y.all Char.isDigit &&
    (m.length == 1 || m.length == 2) && m.all Char.isDigit &&
    (d.length == 1 || d.length == 2) && d.all Char.isDigit &&
    decide (1 ≤ digitsToNat y) &&
    decide (1 ≤ digitsToNat m) && decide (digitsToNat m ≤ 12) &&
    decide (1 ≤ digitsToNat d) &&
    decide (digitsToNat d ≤ daysInMonth (digitsToNat y) (digitsToNat m))
  | _ => false

/-- A calendar date, the value of `datetime.now()` relevant to the core. -/
structure Date where
  year : Nat
  month : Nat
  day : Nat
deriving DecidableEq

/-- `date + timedelta(days=1)`. -/
def addOneDay (d : Date) : Date :=
  if d.day < daysInMonth d.year d.month then ⟨d.year, d.month, d.day + 1⟩
  else if d.month < 12 then ⟨d.year, d.month + 1, 1⟩
  else ⟨d.year + 1, 1, 1⟩

/-- Two-digit zero-padded decimal rendering (months and days). -/
def pad2 (n : Nat) : List Char :=
  [Nat.digitChar (n / 10 % 10), Nat.digitChar (n % 10)]

/-- Four-digit zero-padded decimal rendering (years). -/
def pad4 (n : Nat) : List Char :=
  [Nat.digitChar (n / 1000 % 10), Nat.digitChar (n / 100 % 10),
   Nat.digitChar (n / 10 % 10), Nat.digitChar (n % 10)]

/-- `d.strftime("%Y-%m-%d")`. -/
def dateToStr (d : Date) : String :=
  ⟨pad4 d.year ++ '-' :: pad2 d.month ++ '-' :: pad2 d.day⟩

/-! ## `float(s)` (decimal forms; see the header for modelling notes) -/

/-- The exact rational value of the decimal float `m × 10^e`.  Built with
`mkRat` and explicit `Int`/`Nat` arithmetic so that the kernel can
evaluate it. -/
def decToQ (m : Int) (e : Int) : ℚ :=
  if 0 ≤ e then mkRat (m * Int.pow 10 e.toNat) 1
  else mkRat m (Nat.pow 10 (-e).toNat)

/-- Parse an unsigned decimal mantissa (`digits`, `digits.digits`,
`digits.`, `.digits`), returning it as a pair `(m, e)` denoting
`m × 10^e`, together with the unconsumed rest. -/
def parseMantissa (s : List Char) : Option ((Nat × Int) × List Char) :=
  let ip := s.takeWhile Char.isDigit
  let rest := s.dropWhile Char.isDigit
  match rest with
  | '.' :: rest2 =>
    let fp := rest2.takeWhile Char.isDigit
    let rest3 := rest2.dropWhile Char.isDigit
    if ip.isEmpty && fp.isEmpty then none
    else some ((digitsToNat ip * Nat.pow 10 fp.length + digitsToNat fp,
                -(fp.length : Int)), rest3)
  | _ => if ip.isEmpty then none else some ((digitsToNat ip, 0), rest)

/-- Python `float(s)` on an already-stripped string: optional sign,
decimal mantissa, optional exponent; `none` when `float` would raise
`ValueError`. -/
def parsePyFloat? (s : List Char) : Option ℚ :=
  let (sgn, rest) :=
    match s with
    | '+' :: r => ((1 : Int), r)
    | '-' :: r => ((-1 : Int), r)
    | r => ((1 : Int), r)
  match parseMantissa rest with
  | none => none
  | some ((m, e), rest2) =>
    match rest2 with
    | [] => some (decToQ (sgn * (m : Int)) e)
    | c :: rest3 =>
      if c == 'e' || c == 'E' then
        let (esgn, rest4) :=
          match rest3 with
          | '+' :: r => ((1 : Int), r)
          | '-' :: r => ((-1 : Int), r)
          | r => ((1 : Int), r)
        let ed := rest4.takeWhile Char.isDigit
        let rest5 := rest4.dropWhile Char.isDigit
        if ed.isEmpty || !rest5.isEmpty then none
        else some (decToQ (sgn * (m : Int)) (e + esgn * (digitsToNat ed : Int)))
      else none

/-! ## Python values and dicts -/

/-- One record of the `time_entries` array: the Python dict
`{"hours": …, "description": …, "timestamp": …}` built in `add_time_entry`. -/
structure TimeEntry where
  hours : ℚ
  description : String
  timestamp : Nat
deriving DecidableEq

/-- The value shapes stored in the application's dicts/documents.
`pynone` is Python `None`; `dt` is a `datetime` object (UTC tick);
`oid` is a MongoDB `ObjectId`; `strList`/`entries` are the two array
shapes the app stores (dependency-id strings and time-entry records). -/
inductive PyVal where
  | str (s : String)
  | num (q : ℚ)
  | dt (t : Nat)
  | oid (n : Nat)
  | pynone
  | strList (l : List String)
  | entries (l : List TimeEntry)
deriving DecidableEq

/-- A Python dict / MongoDB document in insertion order. -/
abbrev Dict := List (String × PyVal)

/-- Python `d[k] = v`: replace in place when the key exists, append
otherwise. -/
def dictSet : Dict → String → PyVal → Dict
  | [], k, v => [(k, v)]
  | (k', v') :: rest, k, v =>
    if k' == k then (k, v) :: rest else (k', v') :: dictSet rest k v

/-- Python `d[k]`.  A missing key raises `KeyError` in Python; every read
in the source is of a key that is always present, so the missing case is
mapped to `pynone` here (unreachable). -/
def dictGet (d : Dict) (k : String) : PyVal :=
  (List.lookup k d).getD PyVal.pynone

/-- Python `None`-or-string optional arguments as stored values. -/
def pyOptStr : Option String → PyVal
  | some s => .str s
  | none => .pynone

/-- Python `dependencies or []` (falsy `None`/`[]` becomes `[]`). -/
def pyDepsOr : Option (List String) → List String
  | some l => l
  | none => []

/-! ## `analyze_task` (app.py lines 43–92) -/

/-- The pre-seeded defaults dict of `analyze_task` (lines 58–63), which is
also, verbatim, the dict returned from the `except` branch (lines 87–92). -/
def defaultResult (now : Date) : Dict :=
  [("due_date", .str (dateToStr (addOneDay now))),
   ("priority", .str "Medium"),
   ("complexity", .str "Medium"),
   ("estimated_hours", .num 4)]

/-- One iteration of the parsing loop of `analyze_task` (lines 65–82) on a
comma-separated segment `seg` of the oracle text (`line = line.strip()`
is inlined as `pyStrip seg`). -/
def parseSegment (result : Dict) (seg : List Char) : Dict :=
  if containsSub "Due Date".data (pyStrip seg) then
    if validDateString (pyStrip (lastColonTok (pyStrip seg))) then
      dictSet result "due_date" (.str ⟨pyStrip (lastColonTok (pyStrip seg))⟩)
    else result
  else if containsSub "Priority".data (pyStrip seg) then
    dictSet result "priority" (.str ⟨pyStrip (lastColonTok (pyStrip seg))⟩)
  else if containsSub "Complexity".data (pyStrip seg) then
    dictSet result "complexity" (.str ⟨pyStrip (lastColonTok (pyStrip seg))⟩)
  else if containsSub "Estimated Hours".data (pyStrip seg) then
    match parsePyFloat? (pyStrip (lastColonTok (pyStrip seg))) with
    | some q => dictSet result "estimated_hours" (.num q)
    | none => result
  else result

/-- The success path of `analyze_task` (lines 55–84): strip the oracle
message, split it on commas and run the parsing loop over the defaults. -/
def parseAnalysis (now : Date) (text : String) : Dict :=
  (splitOnChar ',' (pyStrip text.data)).foldl parseSegment (defaultResult now)

/-- `analyze_task` (lines 43–92).  The oracle outcome is a parameter:
`some text` is a successful completion call, `none` is a call that raised,
taken by the `except` branch which returns the default dict. -/
def analyze_task (now : Date) (oracle : Option String) : Dict :=
  match oracle with
  | some text => parseAnalysis now text
  | none => defaultResult now



/-! ## `save_task` (app.py lines 93–112) -/

/-- `save_task`: builds the task document in the source's key order,
inserts it, and then assigns the returned id into the dict
(`task["_id"] = result.inserted_id`).  `now` is `datetime.now(pytz.UTC)`
and `inserted_id` the id produced by the storage collaborator. -/
def save_task (description category : String) (analysis_result : Dict)
    (dependencies : Option (List String)) (github_link notes : Option String)
    (now : Nat) (inserted_id : Nat) : Dict :=
  let task : Dict :=
    [("description", .str description),
     ("category", .str category),
     ("due_date", dictGet analysis_result "due_date"),
     ("priority", dictGet analysis_result "priority"),
     ("complexity", dictGet analysis_result "complexity"),
     ("estimated_hours", dictGet analysis_result "estimated_hours"),
     ("actual_hours", .num 0),
     ("dependencies", .strList (pyDepsOr dependencies)),
     ("github_link", pyOptStr github_link),
     ("notes", pyOptStr notes),
     ("status", .str "Pending"),
     ("created_at", .dt now),
     ("last_updated", .dt now),
     ("time_entries", .entries [])]
  dictSet task "_id" (.oid inserted_id)

/-! ## `fetch_tasks` (app.py lines 159–167) -/

/-- Boolean lexicographic `<` on character lists: MongoDB's default binary
comparison of the stored strings (UTF-8 byte order coincides with
code-point order). -/
def strLtB : List Char → List Char → Bool
  | [], [] => false
  | [], _ :: _ => true
  | _ :: _, [] => false
  | a :: as, b :: bs =>
    if a < b then true
    else if a = b then strLtB as bs
    else false

/-- The string content of a stored value (due dates, priorities and
statuses are always stored as strings by this application). -/
def pyStrOf : PyVal → String
  | .str s => s
  | _ => ""

/-- The sort predicate of `.sort([("due_date", 1), ("priority", -1)])`:
`due_date` ascending and, for equal due dates, `priority` descending —
both compared as raw strings. -/
def fetchLeB (d1 d2 : Dict) : Bool :=
  let a1 := (pyStrOf (dictGet d1 "due_date")).data
  let a2 := (pyStrOf (dictGet d2 "due_date")).data
  let p1 := (pyStrOf (dictGet d1 "priority")).data
  let p2 := (pyStrOf (dictGet d2 "priority")).data
  strLtB a1 a2 || (a1 == a2 && (strLtB p2 p1 || p1 == p2))

/-- `fetchLeB` as a relation, for `List.insertionSort`. -/
def FetchRel (d1 d2 : Dict) : Prop := fetchLeB d1 d2 = true

instance : DecidableRel FetchRel := fun d1 d2 => by
  unfold FetchRel; exact inferInstance

/-- The query filter built on lines 160–166: `due_date` equality when
`date_filter` is truthy, `status`/`category` equality when the filter is
truthy and not `"All"`. -/
def matchesQuery (dateF statusF categoryF : Option String) (d : Dict) : Bool :=
  (match dateF with
   | some s => if s.isEmpty then true else decide (dictGet d "due_date" = .str s)
   | none => true) &&
  (match statusF with
   | some s => if s.isEmpty || s == "All" then true
               else decide (dictGet d "status" = .str s)
   | none => true) &&
  (match categoryF with
   | some s => if s.isEmpty || s == "All" then true
               else decide (dictGet d "category" = .str s)
   | none => true)

/-- `fetch_tasks`: the collection is passed explicitly as the list of its
documents; the result is the filtered documents sorted by the compound
sort key (a stable sort; MongoDB guarantees nothing for ties, and no claim
depends on tie order beyond the sort predicate). -/
def fetch_tasks (docs : List Dict)
    (dateF statusF categoryF : Option String) : List Dict :=
  List.insertionSort FetchRel (docs.filter (matchesQuery dateF statusF categoryF))

/-! ## `update_task_status` (app.py lines 169–178) -/

/-- `update_task_status`: the `$set` modifier applied to the matched task
document — it assigns `status` and `last_updated` and touches nothing
else. -/
def update_task_status (doc : Dict) (new_status : String) (now : Nat) : Dict :=
  dictSet (dictSet doc "status" (.str new_status)) "last_updated" (.dt now)

/-! ## `add_time_entry` (app.py lines 180–195) -/

/-- MongoDB `$push`: append to the array field `k` (create a one-element
array when the field is absent).  A non-array value at `k` would be a
server error; that case is unreachable here and leaves the document
unchanged. -/
def pushEntryField (doc : Dict) (k : String) (e : TimeEntry) : Dict :=
  match List.lookup k doc with
  | some (.entries l) => dictSet doc k (.entries (l ++ [e]))
  | none => dictSet doc k (.entries [e])
  | some _ => doc

/-- MongoDB `$inc`: add `q` to the numeric field `k` (create it with value
`q` when absent).  A non-numeric value at `k` would be a server error;
that case is unreachable here and leaves the document unchanged. -/
def incNumField (doc : Dict) (k : String) (q : ℚ) : Dict :=
  match List.lookup k doc with
  | some (.num x) => dictSet doc k (.num (x + q))
  | none => dictSet doc k (.num q)
  | some _ => doc

/-- `add_time_entry`: builds the time-entry record
`⟨hours, description, now⟩` and applies the `$push`/`$inc`/`$set`
modifiers to the matched task document. -/
def add_time_entry (doc : Dict) (hours : ℚ) (description : String)
    (now : Nat) : Dict :=
  dictSet (incNumField (pushEntryField doc "time_entries" ⟨hours, description, now⟩)
            "actual_hours" hours)
    "last_updated" (.dt now)

/-! ## Association-list lemmas -/

theorem lookup_dictSet_self (d : Dict) (k : String) (v : PyVal) :
    List.lookup k (dictSet d k v) = some v := by
  induction d with
  | nil => simp [dictSet, List.lookup]
  | cons p rest ih =>
    rcases p with ⟨a, b⟩
    by_cases h : a = k
    · subst h
      simp [dictSet, List.lookup]
    · have h1 : (a == k) = false := beq_eq_false_iff_ne.mpr h
      have h2 : (k == a) = false := beq_eq_false_iff_ne.mpr (Ne.symm h)
      simp [dictSet, List.lookup, h1, h2, ih]

theorem lookup_dictSet_ne (d : Dict) (k k' : String) (v : PyVal) (h : k ≠ k') :
    List.lookup k (dictSet d k' v) = List.lookup k d := by
  have hkk : (k == k') = false := beq_eq_false_iff_ne.mpr h
  induction d with
  | nil => simp [dictSet, List.lookup, hkk]
  | cons p rest ih =>
    rcases p with ⟨a, b⟩
    by_cases h2 : a = k'
    · subst h2
      simp [dictSet, List.lookup, hkk]
    · have ha : (a == k') = false := beq_eq_false_iff_ne.mpr h2
      simp [dictSet, List.lookup, ha, ih]

/-! ## Branch equations for the parsing loop -/

theorem parseSegment_due_eq (d : Dict) (seg : List Char)
    (h1 : containsSub "Due Date".data (pyStrip seg) = true)
    (h2 : validDateString (pyStrip (lastColonTok (pyStrip seg))) = true) :
    parseSegment d seg =
      dictSet d "due_date" (.str ⟨pyStrip (lastColonTok (pyStrip seg))⟩) := by
  simp [parseSegment, h1, h2]

/-- A Due-Date segment whose candidate fails `strptime` validation leaves
the result dict untouched. -/
theorem parseSegment_due_invalid (d : Dict) (seg : List Char)
    (h1 : containsSub "Due Date".data (pyStrip seg) = true)
    (h2 : validDateString (pyStrip (lastColonTok (pyStrip seg))) = false) :
    parseSegment d seg = d := by
  simp [parseSegment, h1, h2]

theorem parseSegment_pri_eq (d : Dict) (seg : List Char)
    (h1 : containsSub "Due Date".data (pyStrip seg) = false)
    (h2 : containsSub "Priority".data (pyStrip seg) = true) :
    parseSegment d seg =
      dictSet d "priority" (.str ⟨pyStrip (lastColonTok (pyStrip seg))⟩) := by
  simp [parseSegment, h1, h2]

theorem parseSegment_cplx_eq (d : Dict) (seg : List Char)
    (h1 : containsSub "Due Date".data (pyStrip seg) = false)
    (h2 : containsSub "Priority".data (pyStrip seg) = false)
    (h3 : containsSub "Complexity".data (pyStrip seg) = true) :
    parseSegment d seg =
      dictSet d "complexity" (.str ⟨pyStrip (lastColonTok (pyStrip seg))⟩) := by
  simp [parseSegment, h1, h2, h3]

theorem parseSegment_hours_eq (d : Dict) (seg : List Char) (q : ℚ)
    (h1 : containsSub "Due Date".data (pyStrip seg) = false)
    (h2 : containsSub "Priority".data (pyStrip seg) = false)
    (h3 : containsSub "Complexity".data (pyStrip seg) = false)
    (h4 : containsSub "Estimated Hours".data (pyStrip seg) = true)
    (h5 : parsePyFloat? (pyStrip (lastColonTok (pyStrip seg))) = some q) :
    parseSegment d seg = dictSet d "estimated_hours" (.num q) := by
  simp [parseSegment, h1, h2, h3, h4, h5]

theorem parseSegment_hours_bad (d : Dict) (seg : List Char)
    (h1 : containsSub "Due Date".data (pyStrip seg) = false)
    (h2 : containsSub "Priority".data (pyStrip seg) = false)
    (h3 : containsSub "Complexity".data (pyStrip seg) = false)
    (h4 : containsSub "Estimated Hours".data (pyStrip seg) = true)
    (h5 : parsePyFloat? (pyStrip (lastColonTok (pyStrip seg))) = none) :
    parseSegment d seg = d := by
  simp [parseSegment, h1, h2, h3, h4, h5]

/-- A segment none of whose markers occur (after stripping) leaves the
result dict untouched. -/
theorem parseSegment_no_marker (d : Dict) (seg : List Char)
    (h1 : containsSub "Due Date".data (pyStrip seg) = false)
    (h2 : containsSub "Priority".data (pyStrip seg) = false)
    (h3 : containsSub "Complexity".data (pyStrip seg) = false)
    (h4 : containsSub "Estimated Hours".data (pyStrip seg) = false) :
    parseSegment d seg = d := by
  simp [parseSegment, h1, h2, h3, h4]

/-! ## Invariants of the parsing loop -/

/-- Whether a segment overwrites `due_date` (its Due-Date branch fires
with a candidate that validates). -/
def setsDue (seg : List Char) : Bool :=
  containsSub "Due Date".data (pyStrip seg) &&
  validDateString (pyStrip (lastColonTok (pyStrip seg)))

/-- A segment that does not overwrite `due_date` leaves the `due_date`
entry of the result dict unchanged. -/
theorem parseSegment_due_frame (d : Dict) (seg : List Char)
    (h : setsDue seg = false) :
    List.lookup "due_date" (parseSegment d seg) = List.lookup "due_date" d := by
  unfold setsDue at h
  rw [Bool.and_eq_false_iff] at h
  by_cases h1 : containsSub "Due Date".data (pyStrip seg) = true
  · have h2 : validDateString (pyStrip (lastColonTok (pyStrip seg))) = false := by
      rcases h with h | h
      · rw [h1] at h; exact absurd h (by simp)
      · exact h
    rw [parseSegment_due_invalid d seg h1 h2]
  · rw [Bool.not_eq_true] at h1
    by_cases h2 : containsSub "Priority".data (pyStrip seg) = true
    · rw [parseSegment_pri_eq d seg h1 h2]
      exact lookup_dictSet_ne _ _ _ _ (by decide)
    · rw [Bool.not_eq_true] at h2
      by_cases h3 : containsSub "Complexity".data (pyStrip seg) = true
      · rw [parseSegment_cplx_eq d seg h1 h2 h3]
        exact lookup_dictSet_ne _ _ _ _ (by decide)
      · rw [Bool.not_eq_true] at h3
        by_cases h4 : containsSub "Estimated Hours".data (pyStrip seg) = true
        · cases h5 : parsePyFloat? (pyStrip (lastColonTok (pyStrip seg))) with
          | none => rw [parseSegment_hours_bad d seg h1 h2 h3 h4 h5]
          | some q =>
            rw [parseSegment_hours_eq d seg q h1 h2 h3 h4 h5]
            exact lookup_dictSet_ne _ _ _ _ (by decide)
        · rw [Bool.not_eq_true] at h4
          rw [parseSegment_no_marker d seg h1 h2 h3 h4]

/-- Folding the parsing loop over segments that never overwrite
`due_date` preserves the `due_date` entry. -/
theorem foldl_parseSegment_due_frame (l : List (List Char)) (d : Dict)
    (h : ∀ seg ∈ l, setsDue seg = false) :
    List.lookup "due_date" (l.foldl parseSegment d) = List.lookup "due_date" d := by
  induction l generalizing d with
  | nil => rfl
  | cons seg rest ih =>
    rw [List.foldl_cons, ih _ (fun s hs => h s (List.mem_cons_of_mem _ hs)),
      parseSegment_due_frame d seg (h seg (List.mem_cons_self _ _))]

/-- The field-shape invariant maintained by the parsing loop: `due_date`
is a string that is either the pre-seeded default or a validated
candidate; `priority` and `complexity` are strings; `estimated_hours` is
a number. -/
def GoodResult (now : Date) (d : Dict) : Prop :=
  (∃ s, List.lookup "due_date" d = some (.str s) ∧
    (s = dateToStr (addOneDay now) ∨ validDateString s.data = true)) ∧
  (∃ p, List.lookup "priority" d = some (.str p)) ∧
  (∃ c, List.lookup "complexity" d = some (.str c)) ∧
  (∃ q, List.lookup "estimated_hours" d = some (.num q))

theorem goodResult_default (now : Date) : GoodResult now (defaultResult now) :=
  ⟨⟨_, rfl, Or.inl rfl⟩, ⟨"Medium", rfl⟩, ⟨"Medium", rfl⟩, ⟨4, rfl⟩⟩

theorem goodResult_parseSegment (now : Date) (d : Dict) (seg : List Char)
    (hd : GoodResult now d) : GoodResult now (parseSegment d seg) := by
  obtain ⟨⟨s, hs, hs2⟩, ⟨p, hp⟩, ⟨c, hc⟩, ⟨q, hq⟩⟩ := hd
  by_cases h1 : containsSub "Due Date".data (pyStrip seg) = true
  · by_cases h2 : validDateString (pyStrip (lastColonTok (pyStrip seg))) = true
    · rw [parseSegment_due_eq d seg h1 h2]
      refine ⟨⟨⟨pyStrip (lastColonTok (pyStrip seg))⟩,
          lookup_dictSet_self _ _ _, Or.inr h2⟩, ⟨p, ?_⟩, ⟨c, ?_⟩, ⟨q, ?_⟩⟩ <;>
        rw [lookup_dictSet_ne _ _ _ _ (by decide)] <;> assumption
    · rw [Bool.not_eq_true] at h2
      rw [parseSegment_due_invalid d seg h1 h2]
      exact ⟨⟨s, hs, hs2⟩, ⟨p, hp⟩, ⟨c, hc⟩, ⟨q, hq⟩⟩
  · rw [Bool.not_eq_true] at h1
    by_cases h2 : containsSub "Priority".data (pyStrip seg) = true
    · rw [parseSegment_pri_eq d seg h1 h2]
      refine ⟨⟨s, ?_, hs2⟩, ⟨_, lookup_dictSet_self _ _ _⟩, ⟨c, ?_⟩, ⟨q, ?_⟩⟩ <;>
        rw [lookup_dictSet_ne _ _ _ _ (by decide)] <;> assumption
    · rw [Bool.not_eq_true] at h2
      by_cases h3 : containsSub "Complexity".data (pyStrip seg) = true
      · rw [parseSegment_cplx_eq d seg h1 h2 h3]
        refine ⟨⟨s, ?_, hs2⟩, ⟨p, ?_⟩, ⟨_, lookup_dictSet_self _ _ _⟩, ⟨q, ?_⟩⟩ <;>
          rw [lookup_dictSet_ne _ _ _ _ (by decide)] <;> assumption
      · rw [Bool.not_eq_true] at h3
        by_cases h4 : containsSub "Estimated Hours".data (pyStrip seg) = true
        · cases h5 : parsePyFloat? (pyStrip (lastColonTok (pyStrip seg))) with
          | none =>
            rw [parseSegment_hours_bad d seg h1 h2 h3 h4 h5]
            exact ⟨⟨s, hs, hs2⟩, ⟨p, hp⟩, ⟨c, hc⟩, ⟨q, hq⟩⟩
          | some q2 =>
            rw [parseSegment_hours_eq d seg q2 h1 h2 h3 h4 h5]
            refine ⟨⟨s, ?_⟩, ⟨p, ?_⟩, ⟨c, ?_⟩, ⟨q2, lookup_dictSet_self _ _ _⟩⟩
            · exact ⟨by rw [lookup_dictSet_ne _ _ _ _ (by decide)]; exact hs, hs2⟩
            · rw [lookup_dictSet_ne _ _ _ _ (by decide)]; exact hp
            · rw [lookup_dictSet_ne _ _ _ _ (by decide)]; exact hc
        · rw [Bool.not_eq_true] at h4
          rw [parseSegment_no_marker d seg h1 h2 h3 h4]
          exact ⟨⟨s, hs, hs2⟩, ⟨p, hp⟩, ⟨c, hc⟩, ⟨q, hq⟩⟩

theorem goodResult_foldl (now : Date) (l : List (List Char)) (d : Dict)
    (hd : GoodResult now d) : GoodResult now (l.foldl parseSegment d) := by
  induction l generalizing d with
  | nil => exact hd
  | cons seg rest ih => exact ih _ (goodResult_parseSegment now d seg hd)

theorem goodResult_analyze (now : Date) (oracle : Option String) :
    GoodResult now (analyze_task now oracle) := by
  cases oracle with
  | none => exact goodResult_default now
  | some text => exact goodResult_foldl now _ _ (goodResult_default now)

/-! ## Lemmas about the sort predicate of `fetch_tasks` -/

theorem strLtB_trans (a : List Char) :
    ∀ b c, strLtB a b = true → strLtB b c = true → strLtB a c = true := by
  induction a with
  | nil =>
    intro b c h1 h2
    cases b <;> cases c <;> simp_all [strLtB]
  | cons x xs ih =>
    intro b c h1 h2
    cases b with
    | nil => simp [strLtB] at h1
    | cons y ys =>
      cases c with
      | nil => simp [strLtB] at h2
      | cons z zs =>
        unfold strLtB at h1 h2 ⊢
        by_cases hxy : x < y
        · by_cases hyz : y < z
          · rw [if_pos (lt_trans hxy hyz)]
          · rw [if_neg hyz] at h2
            by_cases hyz2 : y = z
            · subst hyz2; rw [if_pos hxy]
            · rw [if_neg hyz2] at h2; exact absurd h2 (by simp)
        · rw [if_neg hxy] at h1
          by_cases hxy2 : x = y
          · subst hxy2
            rw [if_pos rfl] at h1
            by_cases hyz : x < z
            · rw [if_pos hyz]
            · rw [if_neg hyz] at h2 ⊢
              by_cases hyz2 : x = z
              · rw [if_pos hyz2] at h2 ⊢
                subst hyz2
                exact ih _ _ h1 h2
              · rw [if_neg hyz2] at h2; exact absurd h2 (by simp)
          · rw [if_neg hxy2] at h1; exact absurd h1 (by simp)

theorem strLtB_trichotomy (a : List Char) :
    ∀ b, strLtB a b = true ∨ a = b ∨ strLtB b a = true := by
  induction a with
  | nil =>
    intro b
    cases b with
    | nil => right; left; rfl
    | cons y ys => left; simp [strLtB]
  | cons x xs ih =>
    intro b
    cases b with
    | nil => right; right; simp [strLtB]
    | cons y ys =>
      rcases lt_trichotomy x y with h | h | h
      · left; unfold strLtB; rw [if_pos h]
      · subst h
        rcases ih ys with h2 | h2 | h2
        · left; unfold strLtB; rw [if_neg (lt_irrefl x), if_pos rfl]; exact h2
        · right; left; rw [h2]
        · right; right; unfold strLtB; rw [if_neg (lt_irrefl x), if_pos rfl]; exact h2
      · right; right; unfold strLtB; rw [if_pos h]

/-- `FetchRel` unfolded to its propositional form. -/
theorem fetchRel_iff (d1 d2 : Dict) :
    FetchRel d1 d2 ↔
      (strLtB (pyStrOf (dictGet d1 "due_date")).data
          (pyStrOf (dictGet d2 "due_date")).data = true ∨
        ((pyStrOf (dictGet d1 "due_date")).data =
            (pyStrOf (dictGet d2 "due_date")).data ∧
          (strLtB (pyStrOf (dictGet d2 "priority")).data
              (pyStrOf (dictGet d1 "priority")).data = true ∨
            (pyStrOf (dictGet d1 "priority")).data =
              (pyStrOf (dictGet d2 "priority")).data))) := by
  unfold FetchRel fetchLeB
  simp [Bool.or_eq_true, Bool.and_eq_true]

instance : IsTotal Dict FetchRel := by
  constructor
  intro d1 d2
  rw [fetchRel_iff, fetchRel_iff]
  rcases strLtB_trichotomy (pyStrOf (dictGet d1 "due_date")).data
      (pyStrOf (dictGet d2 "due_date")).data with h | h | h
  · exact Or.inl (Or.inl h)
  · rcases strLtB_trichotomy (pyStrOf (dictGet d1 "priority")).data
        (pyStrOf (dictGet d2 "priority")).data with h2 | h2 | h2
    · exact Or.inr (Or.inr ⟨h.symm, Or.inl h2⟩)
    · exact Or.inl (Or.inr ⟨h, Or.inr h2⟩)
    · exact Or.inl (Or.inr ⟨h, Or.inl h2⟩)
  · exact Or.inr (Or.inl h)

instance : IsTrans Dict FetchRel := by
  constructor
  intro d1 d2 d3 h12 h23
  rw [fetchRel_iff] at h12 h23 ⊢
  rcases h12 with h12 | ⟨he12, hp12⟩
  · rcases h23 with h23 | ⟨he23, hp23⟩
    · exact Or.inl (strLtB_trans _ _ _ h12 h23)
    · exact Or.inl (he23 ▸ h12)
  · rcases h23 with h23 | ⟨he23, hp23⟩
    · exact Or.inl (he12 ▸ h23)
    · refine Or.inr ⟨he12.trans he23, ?_⟩
      rcases hp12 with hp12 | hp12
      · rcases hp23 with hp23 | hp23
        · exact Or.inl (strLtB_trans _ _ _ hp23 hp12)
        · exact Or.inl (hp23 ▸ hp12)
      · rcases hp23 with hp23 | hp23
        · exact Or.inl (hp12 ▸ hp23)
        · exact Or.inr (hp12.trans hp23)

/-! ## Lemmas about `add_time_entry` -/

theorem add_time_entry_lookups (doc : Dict) (h : ℚ) (de : String) (t : Nat)
    (a0 : ℚ) (l0 : List TimeEntry)
    (ha : List.lookup "actual_hours" doc = some (.num a0))
    (hl : List.lookup "time_entries" doc = some (.entries l0)) :
    List.lookup "actual_hours" (add_time_entry doc h de t) = some (.num (a0 + h)) ∧
    List.lookup "time_entries" (add_time_entry doc h de t) =
      some (.entries (l0 ++ [⟨h, de, t⟩])) := by
  have h1 : pushEntryField doc "time_entries" ⟨h, de, t⟩ =
      dictSet doc "time_entries" (.entries (l0 ++ [⟨h, de, t⟩])) := by
    unfold pushEntryField; rw [hl]
  have ha1 : List.lookup "actual_hours"
      (pushEntryField doc "time_entries" ⟨h, de, t⟩) = some (.num a0) := by
    rw [h1, lookup_dictSet_ne _ _ _ _ (by decide)]; exact ha
  have h2 : incNumField (pushEntryField doc "time_entries" ⟨h, de, t⟩)
        "actual_hours" h =
      dictSet (pushEntryField doc "time_entries" ⟨h, de, t⟩)
        "actual_hours" (.num (a0 + h)) := by
    unfold incNumField; rw [ha1]
  unfold add_time_entry
  rw [h2, h1]
  constructor
  · rw [lookup_dictSet_ne _ _ _ _ (by decide)]
    exact lookup_dictSet_self _ _ _
  · rw [lookup_dictSet_ne _ _ _ _ (by decide),
      lookup_dictSet_ne _ _ _ _ (by decide)]
    exact lookup_dictSet_self _ _ _

/-- Iterating `add_time_entry` with fixed hours and description over a
list of call timestamps. -/
theorem foldl_add_time_entry (ts : List Nat) (doc : Dict) (h : ℚ) (de : String)
    (a0 : ℚ) (l0 : List TimeEntry)
    (ha : List.lookup "actual_hours" doc = some (.num a0))
    (hl : List.lookup "time_entries" doc = some (.entries l0)) :
    List.lookup "actual_hours"
        (ts.foldl (fun d t => add_time_entry d h de t) doc) =
      some (.num (a0 + (ts.length : ℚ) * h)) ∧
    List.lookup "time_entries"
        (ts.foldl (fun d t => add_time_entry d h de t) doc) =
      some (.entries (l0 ++ ts.map (fun t => ⟨h, de, t⟩))) := by
  induction ts generalizing doc a0 l0 with
  | nil =>
    simp only [List.foldl_nil, List.length_nil, List.map_nil, List.append_nil,
       Nat.cast_zero, zero_mul, add_zero]
    exact ⟨ha, hl⟩
  | cons t rest ih =>
    obtain ⟨ha2, hl2⟩ := add_time_entry_lookups doc h de t a0 l0 ha hl
    obtain ⟨ha3, hl3⟩ := ih (add_time_entry doc h de t) (a0 + h) (l0 ++ [⟨h, de, t⟩]) ha2 hl2
    constructor
    · rw [List.foldl_cons, ha3]
      congr 2
      rw [List.length_cons]
      push_cast
      ring
    · rw [List.foldl_cons, hl3]
      simp

/-! ## Sample values used by concrete counterexamples and witnesses -/

/-- A fixed current date used by concrete instances. -/
def sampleNow : Date := ⟨2025, 10, 12⟩

/-- A concrete analysis record with priority `"Low"` (the shape
`analyze_task` produces). -/
def sampleAnalysis : Dict :=
  [("due_date", .str "2025-03-01"), ("priority", .str "Low"),
   ("complexity", .str "Easy"), ("estimated_hours", .num 3)]

/-- A concrete freshly saved task document. -/
def sampleTask : Dict :=
  save_task "Fix login bug" "Bug Fix" sampleAnalysis none none none 50 7

/-- Three stored task documents sharing one due date, with priorities
High/Medium/Low. -/
def dueHighD : Dict :=
  [("due_date", .str "2025-01-01"), ("priority", .str "High"),
   ("status", .str "Pending"), ("category", .str "Bug Fix")]

/-- See `dueHighD`. -/
def dueMediumD : Dict :=
  [("due_date", .str "2025-01-01"), ("priority", .str "Medium"),
   ("status", .str "Pending"), ("category", .str "Bug Fix")]

/-- See `dueHighD`. -/
def dueLowD : Dict :=
  [("due_date", .str "2025-01-01"), ("priority", .str "Low"),
   ("status", .str "Pending"), ("category", .str "Bug Fix")]

/-! ## Claim C1 -/

/-- Claim C1, counterexample: the oracle response `"Priority: Urgent"` is
stored verbatim, so the returned priority `"Urgent"` is not a member of
the enumeration `{High, Medium, Low}` — `analyze_task` does not validate
enum membership, refuting the claim that every field is within its
declared domain. -/
theorem c1_priority_unvalidated_ce :
    List.lookup "priority" (analyze_task sampleNow (some "Priority: Urgent")) =
      some (.str "Urgent") ∧
    ("Urgent" : String) ≠ "High" ∧ ("Urgent" : String) ≠ "Medium" ∧
    ("Urgent" : String) ≠ "Low" :=
  ⟨by decide, by decide, by decide, by decide⟩

/-- Claim C1, amended: for every current date and every oracle outcome
(response text or failure), `analyze_task` returns — never raising, which
the embedding expresses by totality — a record whose `due_date` is either
the default tomorrow string or a candidate that passed `%Y-%m-%d`
validation, whose `priority` and `complexity` are strings taken verbatim
from the response with no membership check in `{High, Medium, Low}` /
`{Easy, Medium, Hard}`, and whose `estimated_hours` is whatever number
was parsed, with no bound check. -/
theorem c1_fields_shape (now : Date) (oracle : Option String) :
    (∃ s, List.lookup "due_date" (analyze_task now oracle) = some (.str s) ∧
      (s = dateToStr (addOneDay now) ∨ validDateString s.data = true)) ∧
    (∃ p, List.lookup "priority" (analyze_task now oracle) = some (.str p)) ∧
    (∃ c, List.lookup "complexity" (analyze_task now oracle) = some (.str c)) ∧
    (∃ q, List.lookup "estimated_hours" (analyze_task now oracle) = some (.num q)) :=
  goodResult_analyze now oracle

/-! ## Claim C2 -/

/-- Claim C2, counterexample: the record returned on the oracle-failure
path has no `tags` key at all, refuting the claimed
`tags = ["general"]` component of the default record. -/
theorem c2_no_tags_field_ce :
    List.lookup "tags" (analyze_task sampleNow none) = none := by
  decide

/-- Claim C2, amended: when the oracle call raises, `analyze_task`
catches the failure (modelled by the `none` oracle outcome — nothing is
re-raised) and returns exactly the four-field record
`{due_date: current date + 1 day, priority: "Medium",
complexity: "Medium", estimated_hours: 4}`; no `tags` field exists. -/
theorem c2_failure_defaults (now : Date) :
    analyze_task now none = defaultResult now ∧
    List.lookup "due_date" (analyze_task now none) =
      some (.str (dateToStr (addOneDay now))) ∧
    List.lookup "priority" (analyze_task now none) = some (.str "Medium") ∧
    List.lookup "complexity" (analyze_task now none) = some (.str "Medium") ∧
    List.lookup "estimated_hours" (analyze_task now none) = some (.num 4) ∧
    List.lookup "tags" (analyze_task now none) = none :=
  ⟨rfl, rfl, rfl, rfl, rfl, rfl⟩

/-! ## Claim C3 -/

/-- Claim C3, counterexample: updating a freshly saved task (status
`"Pending"`) to `"Completed"` does not produce any `completion_date`
field — neither on the first transition nor on a repeat — refuting the
claim that the first transition stamps `completion_date`. -/
theorem c3_completion_date_never_set_ce :
    List.lookup "status" sampleTask = some (.str "Pending") ∧
    List.lookup "completion_date"
      (update_task_status sampleTask "Completed" 200) = none ∧
    List.lookup "completion_date"
      (update_task_status (update_task_status sampleTask "Completed" 200)
        "Completed" 300) = none :=
  ⟨rfl, rfl, rfl⟩

/-- Claim C3, amended: `update_task_status` sets only `status` and
`last_updated`, for every new status including `"Completed"`; task
documents are created without a `completion_date` field and no operation
ever adds one. -/
theorem c3_no_completion_date :
    (∀ (doc : Dict) (s : String) (t : Nat),
      List.lookup "completion_date" (update_task_status doc s t) =
        List.lookup "completion_date" doc) ∧
    (∀ (de ca : String) (an : Dict) (dep : Option (List String))
        (gh nt : Option String) (now oid : Nat),
      List.lookup "completion_date" (save_task de ca an dep gh nt now oid) = none) := by
  constructor
  · intro doc s t
    unfold update_task_status
    rw [lookup_dictSet_ne _ _ _ _ (by decide), lookup_dictSet_ne _ _ _ _ (by decide)]
  · intro de ca an dep gh nt now oid
    rfl

/-! ## Claim C4 -/

/-- Claim C4, counterexample: the numeric candidate `100` is stored
verbatim as `estimated_hours`, and `100` is outside the claimed closed
bound `[0.5, 40]` — no clamping happens. -/
theorem c4_hours_not_clamped_ce :
    List.lookup "estimated_hours"
        (analyze_task sampleNow (some "Estimated Hours: 100")) =
      some (.num (mkRat 100 1)) ∧
    (mkRat 100 1 : ℚ) = 100 ∧ ¬((100 : ℚ) ≤ 40) := by
  refine ⟨by decide, ?_, by norm_num⟩
  norm_num [Rat.mkRat_eq_div]

/-- Claim C4, amended: numeric candidates are stored verbatim with no
clamping (`-5 → -5`, `0 → 0`, `0.5 → 0.5`, `40 → 40`, `100 → 100`), and
non-numeric candidates are rejected in favour of the default `4`. -/
theorem c4_hours_verbatim (now : Date) :
    List.lookup "estimated_hours" (analyze_task now (some "Estimated Hours: -5")) =
      some (.num (mkRat (-5) 1)) ∧
    List.lookup "estimated_hours" (analyze_task now (some "Estimated Hours: 0")) =
      some (.num (mkRat 0 1)) ∧
    List.lookup "estimated_hours" (analyze_task now (some "Estimated Hours: 0.5")) =
      some (.num (mkRat 1 2)) ∧
    List.lookup "estimated_hours" (analyze_task now (some "Estimated Hours: 40")) =
      some (.num (mkRat 40 1)) ∧
    List.lookup "estimated_hours" (analyze_task now (some "Estimated Hours: 100")) =
      some (.num (mkRat 100 1)) ∧
    List.lookup "estimated_hours" (analyze_task now (some "Estimated Hours: abc")) =
      some (.num 4) ∧
    (mkRat (-5) 1 : ℚ) = -5 ∧ (mkRat 1 2 : ℚ) = 1/2 ∧ (mkRat 100 1 : ℚ) = 100 := by
  refine ⟨rfl, rfl, rfl, rfl, rfl, rfl, ?_, ?_, ?_⟩ <;> norm_num [Rat.mkRat_eq_div]

/-! ## Claim C5 -/

/-- Claim C5, counterexample: there is no per-field override channel in
`save_task` — even when every user-supplied optional argument is
`"High"`, the assembled priority is still the suggestion `"Low"`; and a
present-but-empty `notes` value is stored verbatim instead of being
replaced by a default, so no empty/sentinel check exists either. -/
theorem c5_no_override_merge_ce :
    List.lookup "priority"
        (save_task "d" "c" sampleAnalysis (some ["High"]) (some "High")
          (some "High") 100 7) =
      some (.str "Low") ∧
    List.lookup "notes"
        (save_task "d" "c" sampleAnalysis none none (some "") 100 7) =
      some (.str "") ∧
    PyVal.str "" ≠ PyVal.pynone ∧ ("Low" : String) ≠ "High" :=
  ⟨rfl, rfl, by decide, by decide⟩

/-- Claim C5, amended: `save_task` performs no right-biased override
merge.  The analysed fields (`due_date`, `priority`, `complexity`,
`estimated_hours`) always carry the suggestion values unchanged, and the
only user-supplied optional inputs — `dependencies`, `github_link`,
`notes` — have no suggested counterparts and are stored verbatim
(`dependencies` falls back to `[]` when `None`/empty), with no
emptiness or "auto-detect" sentinel check. -/
theorem c5_save_task_carries_suggestion (de ca : String) (an : Dict)
    (dep : Option (List String)) (gh nt : Option String) (now oid : Nat) :
    List.lookup "due_date" (save_task de ca an dep gh nt now oid) =
      some (dictGet an "due_date") ∧
    List.lookup "priority" (save_task de ca an dep gh nt now oid) =
      some (dictGet an "priority") ∧
    List.lookup "complexity" (save_task de ca an dep gh nt now oid) =
      some (dictGet an "complexity") ∧
    List.lookup "estimated_hours" (save_task de ca an dep gh nt now oid) =
      some (dictGet an "estimated_hours") ∧
    List.lookup "dependencies" (save_task de ca an dep gh nt now oid) =
      some (.strList (pyDepsOr dep)) ∧
    List.lookup "github_link" (save_task de ca an dep gh nt now oid) =
      some (pyOptStr gh) ∧
    List.lookup "notes" (save_task de ca an dep gh nt now oid) =
      some (pyOptStr nt) :=
  ⟨rfl, rfl, rfl, rfl, rfl, rfl, rfl⟩

/-! ## Claim C6 -/

/-- Claim C6, counterexample: for two tasks with the same due date, the
descending raw-string priority tiebreak puts `"Low"` before `"High"`
(`"Low" > "High"` in byte order), refuting the claimed
descending-severity order in which `"High"` would come first. -/
theorem c6_priority_tiebreak_ce :
    fetch_tasks [dueHighD, dueLowD] none none none = [dueLowD, dueHighD] ∧
    ([dueLowD, dueHighD] : List Dict) ≠ [dueHighD, dueLowD] :=
  ⟨by decide, by decide⟩

/-- Claim C6, amended: `fetch_tasks` returns the filtered documents
sorted by `due_date` ascending with `priority` descending as the
tiebreak, where both keys are compared as raw strings (MongoDB binary
order) — so for equal due dates the priority order is
`"Medium"`, `"Low"`, `"High"`, not descending severity. -/
theorem c6_fetch_sorted (docs : List Dict) (dF sF cF : Option String) :
    List.Sorted FetchRel (fetch_tasks docs dF sF cF) ∧
    fetch_tasks [dueHighD, dueMediumD, dueLowD] none none none =
      [dueMediumD, dueLowD, dueHighD] :=
  ⟨List.sorted_insertionSort FetchRel _, by decide⟩

/-! ## Claim C7 -/

/-- Claim C7, counterexample: in the response
`"Due Date: 2025-06-01, Due Date: garbage"` the candidate `"garbage"`
fails to parse and is discarded, but the kept `due_date` is the earlier
valid candidate `"2025-06-01"`, not the claimed default of tomorrow
(`"2025-10-13"` for the processing date 2025-10-12). -/
theorem c7_keeps_prior_not_tomorrow_ce :
    validDateString (pyStrip (lastColonTok (pyStrip " Due Date: garbage".data))) =
      false ∧
    List.lookup "due_date"
        (analyze_task sampleNow (some "Due Date: 2025-06-01, Due Date: garbage")) =
      some (.str "2025-06-01") ∧
    dateToStr (addOneDay sampleNow) = "2025-10-13" ∧
    ("2025-06-01" : String) ≠ "2025-10-13" :=
  ⟨by decide, by decide, by decide, by decide⟩

/-- Claim C7, amended: an unparseable due-date candidate is discarded
and `due_date` keeps its current value — which is the default of
tomorrow only when no other segment supplied a valid candidate — and no
error escapes (the parsing loop is total).  Part one: a Due-Date segment
with an invalid candidate leaves the record unchanged; part two: when no
segment carries a valid due-date candidate, the returned `due_date` is
exactly the tomorrow default. -/
theorem c7_invalid_due_discarded :
    (∀ (d : Dict) (seg : List Char),
      containsSub "Due Date".data (pyStrip seg) = true →
      validDateString (pyStrip (lastColonTok (pyStrip seg))) = false →
      parseSegment d seg = d) ∧
    (∀ (now : Date) (text : String),
      (∀ seg ∈ splitOnChar ',' (pyStrip text.data), setsDue seg = false) →
      List.lookup "due_date" (analyze_task now (some text)) =
        some (.str (dateToStr (addOneDay now)))) := by
  constructor
  · exact parseSegment_due_invalid
  · intro now text h
    show List.lookup "due_date"
        ((splitOnChar ',' (pyStrip text.data)).foldl parseSegment
          (defaultResult now)) = _
    rw [foldl_parseSegment_due_frame _ _ h]
    rfl

/-- Claim C7, witness: both parts of `c7_invalid_due_discarded`
instantiated at concrete inputs, hypotheses discharged by computation. -/
theorem c7_invalid_due_discarded_witness :
    containsSub "Due Date".data (pyStrip " Due Date: garbage".data) = true ∧
    validDateString (pyStrip (lastColonTok (pyStrip " Due Date: garbage".data))) =
      false ∧
    parseSegment (defaultResult sampleNow) " Due Date: garbage".data =
      defaultResult sampleNow ∧
    List.lookup "due_date"
        (analyze_task sampleNow (some "Priority: High, Due Date: garbage")) =
      some (.str (dateToStr (addOneDay sampleNow))) :=
  ⟨by decide, by decide,
    c7_invalid_due_discarded.1 _ _ (by decide) (by decide),
    c7_invalid_due_discarded.2 sampleNow _ (by decide)⟩

/-! ## Claim C8 -/

/-- Claim C8: starting from a task whose `actual_hours` is `a0` and whose
`time_entries` is `l0`, a sequence of `n` `add_time_entry` calls with
positive hours `h` each leaves `actual_hours = a0 + n·h` and appends the
`n` entry records in call order (each call also refreshes
`last_updated`, which the claim does not constrain). -/
theorem c8_log_time_accumulates (doc : Dict) (h : ℚ) (de : String)
    (ts : List Nat) (a0 : ℚ) (l0 : List TimeEntry)
    (hpos : 0 < h)
    (ha : List.lookup "actual_hours" doc = some (.num a0))
    (hl : List.lookup "time_entries" doc = some (.entries l0)) :
    List.lookup "actual_hours"
        (ts.foldl (fun d t => add_time_entry d h de t) doc) =
      some (.num (a0 + (ts.length : ℚ) * h)) ∧
    List.lookup "time_entries"
        (ts.foldl (fun d t => add_time_entry d h de t) doc) =
      some (.entries (l0 ++ ts.map (fun t => ⟨h, de, t⟩))) :=
  foldl_add_time_entry ts doc h de a0 l0 ha hl

/-- Claim C8, witness: three calls of 1.5 hours on a fresh task (actual
hours 0, no entries) yield `actual_hours = 4.5` and the three entries in
call order. -/
theorem c8_log_time_witness :
    (0 : ℚ) < 3/2 ∧
    List.lookup "actual_hours" sampleTask = some (.num 0) ∧
    List.lookup "time_entries" sampleTask = some (.entries []) ∧
    List.lookup "actual_hours"
        (([101, 102, 103] : List Nat).foldl
          (fun d t => add_time_entry d (3/2) "x" t) sampleTask) =
      some (.num ((0 : ℚ) + ((([101, 102, 103] : List Nat).length : ℚ)) * (3/2))) ∧
    List.lookup "time_entries"
        (([101, 102, 103] : List Nat).foldl
          (fun d t => add_time_entry d (3/2) "x" t) sampleTask) =
      some (.entries (([] : List TimeEntry) ++
        ([101, 102, 103] : List Nat).map (fun t => ⟨3/2, "x", t⟩))) ∧
    (0 : ℚ) + ((([101, 102, 103] : List Nat).length : ℚ)) * (3/2) = 9/2 := by
  have hpos : (0 : ℚ) < 3/2 := by norm_num
  have ha : List.lookup "actual_hours" sampleTask = some (.num 0) := rfl
  have hl : List.lookup "time_entries" sampleTask = some (.entries []) := rfl
  obtain ⟨h1, h2⟩ :=
    c8_log_time_accumulates sampleTask (3/2) "x" [101, 102, 103] 0 [] hpos ha hl
  exact ⟨hpos, ha, hl, h1, h2, by norm_num⟩

/-! ## Claim C9 -/

/-- Claim C9: `update_task_status` changes only `status` (to the new
value) and `last_updated` (to the current time); every other key of the
task document is looked up unchanged. -/
theorem c9_update_status_frame (doc : Dict) (s : String) (t : Nat) (k : String)
    (h1 : k ≠ "status") (h2 : k ≠ "last_updated") :
    List.lookup k (update_task_status doc s t) = List.lookup k doc ∧
    List.lookup "status" (update_task_status doc s t) = some (.str s) ∧
    List.lookup "last_updated" (update_task_status doc s t) = some (.dt t) := by
  unfold update_task_status
  refine ⟨?_, ?_, lookup_dictSet_self _ _ _⟩
  · rw [lookup_dictSet_ne _ _ _ _ h2, lookup_dictSet_ne _ _ _ _ h1]
  · rw [lookup_dictSet_ne _ _ _ _ (by decide)]
    exact lookup_dictSet_self _ _ _

/-- Claim C9, witness: the frame property instantiated at the `priority`
key of a concrete saved task. -/
theorem c9_update_status_frame_witness :
    (("priority" : String) ≠ "status" ∧ ("priority" : String) ≠ "last_updated") ∧
    (List.lookup "priority" (update_task_status sampleTask "Completed" 99) =
        List.lookup "priority" sampleTask ∧
      List.lookup "status" (update_task_status sampleTask "Completed" 99) =
        some (.str "Completed") ∧
      List.lookup "last_updated" (update_task_status sampleTask "Completed" 99) =
        some (.dt 99)) :=
  ⟨⟨by decide, by decide⟩,
    c9_update_status_frame sampleTask "Completed" 99 "priority"
      (by decide) (by decide)⟩

/-! ## Claim C10 -/

/-- Claim C10: when no comma-separated segment of the oracle response
contains any of the markers `"Due Date"`, `"Priority"`, `"Complexity"`,
`"Estimated Hours"`, the success path returns exactly the default record
(due_date = current date + 1 day, both enums `"Medium"`,
estimated_hours 4), which is the same record the oracle-failure path
returns. -/
theorem c10_no_marker_defaults (now : Date) (text : String)
    (h : ∀ seg ∈ splitOnChar ',' (pyStrip text.data),
      containsSub "Due Date".data (pyStrip seg) = false ∧
      containsSub "Priority".data (pyStrip seg) = false ∧
      containsSub "Complexity".data (pyStrip seg) = false ∧
      containsSub "Estimated Hours".data (pyStrip seg) = false) :
    analyze_task now (some text) = defaultResult now ∧
    analyze_task now (some text) = analyze_task now none := by
  have key : ∀ (l : List (List Char)) (d : Dict),
      (∀ seg ∈ l,
        containsSub "Due Date".data (pyStrip seg) = false ∧
        containsSub "Priority".data (pyStrip seg) = false ∧
        containsSub "Complexity".data (pyStrip seg) = false ∧
        containsSub "Estimated Hours".data (pyStrip seg) = false) →
      l.foldl parseSegment d = d := by
    intro l
    induction l with
    | nil => intro d _; rfl
    | cons seg rest ih =>
      intro d hall
      obtain ⟨h1, h2, h3, h4⟩ := hall seg (List.mem_cons_self _ _)
      rw [List.foldl_cons, parseSegment_no_marker d seg h1 h2 h3 h4]
      exact ih d (fun s hs => hall s (List.mem_cons_of_mem _ hs))
  exact ⟨key _ _ h, key _ _ h⟩

/-- Claim C10, witness: a marker-free response yields the default record,
identical to the failure path. -/
theorem c10_no_marker_defaults_witness :
    (∀ seg ∈ splitOnChar ',' (pyStrip "hello world, nothing to see".data),
      containsSub "Due Date".data (pyStrip seg) = false ∧
      containsSub "Priority".data (pyStrip seg) = false ∧
      containsSub "Complexity".data (pyStrip seg) = false ∧
      containsSub "Estimated Hours".data (pyStrip seg) = false) ∧
    (analyze_task sampleNow (some "hello world, nothing to see") =
        defaultResult sampleNow ∧
      analyze_task sampleNow (some "hello world, nothing to see") =
        analyze_task sampleNow none) :=
  ⟨by decide, c10_no_marker_defaults sampleNow _ (by decide)⟩

end TaskManager
